import Mathlib

namespace HelloTriangle

/-! Shallow embedding of the device-selection, queue-resolution and
swapchain-negotiation logic of src/main.cpp (class HelloTriangleApplication).
uint32_t values are modelled as Nat; the source performs no arithmetic on
them that could overflow, only comparisons and bit tests. -/

/-- Numeric value of the uint32_t maximum, the "match the window" sentinel
tested by chooseSwapExtent (src/main.cpp line 337). -/
def uint32Max : Nat := 4294967295

/-- Bit value of vk::QueueFlagBits::eGraphics, tested against queueFlags. -/
def eGraphicsBit : Nat := 1

/-- VK_API_VERSION_1_3 packed as in vulkan_core.h: (1 <<< 22) + (3 <<< 12). -/
def vkApiVersion13 : Nat := (1 <<< 22) + (3 <<< 12)

/-- vk::Format restricted to the constructors the source mentions, with a
catch-all carrying the numeric code of any other format. -/
inductive Format where
  | eB8G8R8A8Srgb
  | eUndefined
  | otherFormat (code : Nat)
deriving DecidableEq

/-- vk::ColorSpaceKHR restricted to the constructor the source mentions. -/
inductive ColorSpaceKHR where
  | eSrgbNonlinear
  | otherColorSpace (code : Nat)
deriving DecidableEq

/-- vk::PresentModeKHR with the constructors relevant to the source. -/
inductive PresentModeKHR where
  | eMailbox
  | eFifo
  | eImmediate
  | eFifoRelaxed
  | otherPresentMode (code : Nat)
deriving DecidableEq

/-- vk::SurfaceFormatKHR: a (format, color space) pair. -/
structure SurfaceFormatKHR where
  format : Format
  colorSpace : ColorSpaceKHR
deriving DecidableEq

/-- vk::Extent2D. -/
structure Extent2D where
  width : Nat
  height : Nat
deriving DecidableEq

/-- The fields of vk::SurfaceCapabilitiesKHR that the source reads. -/
structure SurfaceCapabilitiesKHR where
  minImageCount : Nat
  maxImageCount : Nat
  currentExtent : Extent2D
  minImageExtent : Extent2D
  maxImageExtent : Extent2D
deriving DecidableEq

/-- Snapshot of the per-device data isDeviceSuitable reads: the reported
apiVersion, the queueFlags word of each queue family in order, the names of
the supported device extensions, and the three feature bits extracted from
the getFeatures2 chain (src/main.cpp lines 216-217). -/
structure PhysicalDevice where
  apiVersion : Nat
  queueFamilies : List Nat
  extensions : List String
  shaderDrawParameters : Bool
  dynamicRendering : Bool
  extendedDynamicState : Bool
deriving DecidableEq

/-- requiredDeviceExtensions (src/main.cpp lines 54-59), as the extension
name strings the vk constants expand to. -/
def requiredDeviceExtensions : List String :=
  ["VK_KHR_swapchain", "VK_KHR_spirv_1_4", "VK_KHR_synchronization2",
   "VK_KHR_create_renderpass2"]

/-- Conjunction computed at src/main.cpp line 217 from the getFeatures2
chain: shaderDrawParameters, dynamicRendering, extendedDynamicState. -/
def supportsRequiredFeatures (device : PhysicalDevice) : Bool :=
  device.shaderDrawParameters && device.dynamicRendering && device.extendedDynamicState

/-- isDeviceSuitable (src/main.cpp lines 199-220): api version at least 1.3,
some queue family with the graphics bit, and every required extension found
among the device extensions by exact string comparison. The source also
computes supportsRequiredFeatures at line 217, but the return statement at
line 219 is isSuitable and found, which does not use it; this embedding is
faithful to that returned value. -/
def isDeviceSuitable (device : PhysicalDevice) : Bool :=
  (decide (vkApiVersion13 ≤ device.apiVersion)
      && (device.queueFamilies.find? (fun qfp => qfp &&& eGraphicsBit != 0)).isSome)
    && requiredDeviceExtensions.all
      (fun required => (device.extensions.find? (fun ext => ext == required)).isSome)

/-- Errors thrown by pickPhysicalDevice (src/main.cpp lines 187 and 193). -/
inductive PickError where
  | NoDevicesFound
  | NoSuitableDevice
deriving DecidableEq

/-- pickPhysicalDevice (src/main.cpp lines 183-197): the empty-catalog throw
at line 187 becomes NoDevicesFound, the no-match throw at line 193 becomes
NoSuitableDevice, and otherwise the std::ranges::find_if result - the first
device in enumeration order satisfying isDeviceSuitable - is selected. -/
def pickPhysicalDevice (devices : List PhysicalDevice) : Except PickError PhysicalDevice :=
  if devices.isEmpty then .error .NoDevicesFound
  else
    match devices.find? isDeviceSuitable with
    | some device => .ok device
    | none => .error .NoSuitableDevice

/-- Tests whether the queue family at index i has the graphics bit set;
false when i is out of range. -/
def graphicsAt (families : List Nat) (i : Nat) : Bool :=
  match families[i]? with
  | some flags => flags &&& eGraphicsBit != 0
  | none => false

/-- First index at or after k (the list serving as fuel, one element per
index) satisfying p; models the for loops of createLogicalDevice that scan
queue-family indices in increasing order and stop at the first hit, and the
std::ranges::find_if over the family list. -/
def scanFirst (p : Nat → Bool) : List Nat → Nat → Option Nat
  | [], _ => none
  | _ :: rest, k => if p k then some k else scanFirst p rest (k + 1)

/-- Error thrown at src/main.cpp line 255. -/
inductive QueueError where
  | NoQueueFamilyAvailable
deriving DecidableEq

/-- The pair of queue-family indices createLogicalDevice resolves. -/
structure ResolvedQueues where
  graphicsIndex : Nat
  presentIndex : Nat
deriving DecidableEq

/-- Queue resolution of createLogicalDevice (src/main.cpp lines 222-256).
families lists the queueFlags of each family of the chosen device; ps i
models getSurfaceSupportKHR(i, surface). graphicsIndex is the distance to
the first graphics-capable family (the list length when there is none, as
std::distance to end); presentIndex starts as that index when it can
present and the list length otherwise (line 229); the first fallback loop
(lines 235-241) looks for a family with both graphics and present support
and assigns it to both roles, the second (lines 245-250) for any
present-capable family; line 254 throws when either index still equals the
family count. -/
def resolveQueues (families : List Nat) (ps : Nat → Bool) : Except QueueError ResolvedQueues :=
  let n := families.length
  let graphicsIndex := (scanFirst (graphicsAt families) families 0).getD n
  let presentIndex := if ps graphicsIndex then graphicsIndex else n
  let gp : Nat × Nat :=
    if presentIndex = n then
      match scanFirst (fun i => graphicsAt families i && ps i) families 0 with
      | some i => (i, i)
      | none =>
        match scanFirst ps families 0 with
        | some i => (graphicsIndex, i)
        | none => (graphicsIndex, presentIndex)
    else (graphicsIndex, presentIndex)
  if gp.1 = n ∨ gp.2 = n then .error .NoQueueFamilyAvailable
  else .ok { graphicsIndex := gp.1, presentIndex := gp.2 }

/-- chooseSwapSurfaceFormat (src/main.cpp lines 317-325): the loop returns
the first pair equal to (eB8G8R8A8Srgb, eSrgbNonlinear); otherwise the
source evaluates availableFormats[0], which on an empty vector is an
out-of-bounds access (undefined behaviour), modelled here as none. -/
def chooseSwapSurfaceFormat (availableFormats : List SurfaceFormatKHR) :
    Option SurfaceFormatKHR :=
  match availableFormats.find?
      (fun f => f.format == Format.eB8G8R8A8Srgb && f.colorSpace == ColorSpaceKHR.eSrgbNonlinear) with
  | some f => some f
  | none => availableFormats[0]?

/-- chooseSwapPresentMode (src/main.cpp lines 327-334): the loop returns
eMailbox when present anywhere in the list, and eFifo otherwise. -/
def chooseSwapPresentMode (availablePresentModes : List PresentModeKHR) : PresentModeKHR :=
  match availablePresentModes.find? (fun m => m == PresentModeKHR.eMailbox) with
  | some m => m
  | none => PresentModeKHR.eFifo

/-- The preferred pair chooseSwapSurfaceFormat looks for. -/
def preferredSurfaceFormat : SurfaceFormatKHR :=
  { format := Format.eB8G8R8A8Srgb, colorSpace := ColorSpaceKHR.eSrgbNonlinear }

/-- Combined format and present-mode part of swapchain negotiation as
createSwapChain performs it (src/main.cpp lines 289 and 306): none exactly
when the format chooser hits its out-of-bounds case. -/
def negotiateFormatsAndMode (formats : List SurfaceFormatKHR) (modes : List PresentModeKHR) :
    Option (SurfaceFormatKHR × PresentModeKHR) :=
  match chooseSwapSurfaceFormat formats with
  | some f => some (f, chooseSwapPresentMode modes)
  | none => none

/-- std::clamp on uint32_t values: lo when v is below lo, hi when v is
above hi, v otherwise. -/
def clampNat (v lo hi : Nat) : Nat :=
  if v < lo then lo else if hi < v then hi else v

/-- chooseSwapExtent (src/main.cpp lines 336-348); fbWidth and fbHeight are
the glfwGetFramebufferSize results, non-negative in GLFW. -/
def chooseSwapExtent (capabilities : SurfaceCapabilitiesKHR) (fbWidth fbHeight : Nat) : Extent2D :=
  if capabilities.currentExtent.width ≠ uint32Max then
    capabilities.currentExtent
  else
    { width := clampNat fbWidth capabilities.minImageExtent.width capabilities.maxImageExtent.width,
      height := clampNat fbHeight capabilities.minImageExtent.height capabilities.maxImageExtent.height }

/-- Image-count negotiation of createSwapChain (src/main.cpp lines 288 and
292): start from max(3, minImageCount), then clamp down to maxImageCount
when that bound is positive and exceeded. -/
def swapChainImageCount (capabilities : SurfaceCapabilitiesKHR) : Nat :=
  let minImageCount := max 3 capabilities.minImageCount
  if 0 < capabilities.maxImageCount ∧ capabilities.maxImageCount < minImageCount then
    capabilities.maxImageCount
  else minImageCount

/-- States that j is the first index below n satisfying p. -/
def firstIdxWith (p : Nat → Bool) (n j : Nat) : Prop :=
  j < n ∧ p j = true ∧ ∀ i, i < j → p i = false

/-- Device meeting the version, queue and extension checks while reporting
all three required feature bits as unavailable. -/
def featurelessDevice : PhysicalDevice :=
  { apiVersion := vkApiVersion13, queueFamilies := [eGraphicsBit],
    extensions := requiredDeviceExtensions, shaderDrawParameters := false,
    dynamicRendering := false, extendedDynamicState := false }

/-- Device failing the suitability check through its api version. -/
def unsuitableDevice : PhysicalDevice :=
  { apiVersion := 0, queueFamilies := [eGraphicsBit],
    extensions := requiredDeviceExtensions, shaderDrawParameters := true,
    dynamicRendering := true, extendedDynamicState := true }

/-- First of two distinct fully suitable devices. -/
def suitableDeviceA : PhysicalDevice :=
  { apiVersion := vkApiVersion13, queueFamilies := [eGraphicsBit],
    extensions := requiredDeviceExtensions, shaderDrawParameters := true,
    dynamicRendering := true, extendedDynamicState := true }

/-- Second of two distinct fully suitable devices. -/
def suitableDeviceB : PhysicalDevice :=
  { apiVersion := vkApiVersion13 + 1, queueFamilies := [eGraphicsBit],
    extensions := requiredDeviceExtensions, shaderDrawParameters := true,
    dynamicRendering := true, extendedDynamicState := true }

/-- Capabilities whose current extent carries the sentinel in the width
only. -/
def widthSentinelCaps : SurfaceCapabilitiesKHR :=
  { minImageCount := 2, maxImageCount := 8,
    currentExtent := { width := uint32Max, height := 480 },
    minImageExtent := { width := 100, height := 100 },
    maxImageExtent := { width := 1000, height := 1000 } }

/-- Capabilities whose current extent carries the sentinel in both axes. -/
def bothSentinelCaps : SurfaceCapabilitiesKHR :=
  { minImageCount := 2, maxImageCount := 8,
    currentExtent := { width := uint32Max, height := uint32Max },
    minImageExtent := { width := 100, height := 100 },
    maxImageExtent := { width := 1000, height := 1000 } }

/-- Capabilities whose current extent carries the sentinel in the height
only. -/
def heightSentinelCaps : SurfaceCapabilitiesKHR :=
  { minImageCount := 2, maxImageCount := 8,
    currentExtent := { width := 640, height := uint32Max },
    minImageExtent := { width := 100, height := 100 },
    maxImageExtent := { width := 1000, height := 1000 } }

/-- Capabilities violating the Vulkan guarantee that a nonzero
maxImageCount is at least minImageCount. -/
def tightCaps : SurfaceCapabilitiesKHR :=
  { minImageCount := 2, maxImageCount := 1,
    currentExtent := { width := 640, height := 480 },
    minImageExtent := { width := 1, height := 1 },
    maxImageExtent := { width := 1000, height := 1000 } }

/-- Capabilities with minImageCount 2 and maxImageCount 2. -/
def caps22 : SurfaceCapabilitiesKHR :=
  { minImageCount := 2, maxImageCount := 2,
    currentExtent := { width := 640, height := 480 },
    minImageExtent := { width := 1, height := 1 },
    maxImageExtent := { width := 1000, height := 1000 } }

/-- Capabilities with minImageCount 1 and no upper bound. -/
def caps10 : SurfaceCapabilitiesKHR :=
  { minImageCount := 1, maxImageCount := 0,
    currentExtent := { width := 640, height := 480 },
    minImageExtent := { width := 1, height := 1 },
    maxImageExtent := { width := 1000, height := 1000 } }

/-! Helper lemmas characterizing the index scans and list searches. -/

theorem scanFirst_eq_some_iff (p : Nat → Bool) :
    ∀ (l : List Nat) (k j : Nat),
      scanFirst p l k = some j ↔
        (k ≤ j ∧ j < k + l.length ∧ p j = true ∧ ∀ i, k ≤ i → i < j → p i = false) := by
  intro l
  induction l with
  | nil =>
    intro k j
    simp only [scanFirst, List.length_nil]
    constructor
    · intro h
      exact Option.noConfusion h
    · rintro ⟨h1, h2, -, -⟩
      omega
  | cons f rest ih =>
    intro k j
    simp only [scanFirst, List.length_cons]
    by_cases hk : p k = true
    · rw [if_pos hk]
      constructor
      · intro h
        obtain rfl : k = j := Option.some.inj h
        exact ⟨Nat.le_refl _, by omega, hk,
          fun i h1 h2 => absurd (Nat.lt_of_le_of_lt h1 h2) (Nat.lt_irrefl _)⟩
      · rintro ⟨h1, h2, hpj, hmin⟩
        have hjk : j = k := by
          by_contra hne
          have hkj : k < j := Nat.lt_of_le_of_ne h1 (fun hh => hne hh.symm)
          have hc := hmin k (Nat.le_refl _) hkj
          rw [hk] at hc
          exact Bool.noConfusion hc
        subst hjk
        rfl
    · rw [if_neg hk]
      have hpk : p k = false := by
        cases hpk2 : p k with
        | false => rfl
        | true => exact absurd hpk2 hk
      rw [ih (k + 1) j]
      constructor
      · rintro ⟨h1, h2, hpj, hmin⟩
        refine ⟨by omega, by omega, hpj, ?_⟩
        intro i hi1 hi2
        rcases Nat.eq_or_lt_of_le hi1 with heq | hlt
        · rw [← heq]
          exact hpk
        · exact hmin i hlt hi2
      · rintro ⟨h1, h2, hpj, hmin⟩
        refine ⟨?_, by omega, hpj, fun i hi1 hi2 => hmin i (by omega) hi2⟩
        rcases Nat.eq_or_lt_of_le h1 with heq | hlt
        · rw [← heq] at hpj
          rw [hpk] at hpj
          exact Bool.noConfusion hpj
        · omega

theorem scanFirst_eq_none_iff (p : Nat → Bool) :
    ∀ (l : List Nat) (k : Nat),
      scanFirst p l k = none ↔ ∀ i, k ≤ i → i < k + l.length → p i = false := by
  intro l
  induction l with
  | nil =>
    intro k
    simp only [scanFirst, List.length_nil]
    constructor
    · intro _ i h1 h2
      omega
    · intro _
      trivial
  | cons f rest ih =>
    intro k
    simp only [scanFirst, List.length_cons]
    by_cases hk : p k = true
    · rw [if_pos hk]
      constructor
      · intro h
        exact Option.noConfusion h
      · intro h
        have hc := h k (Nat.le_refl _) (by omega)
        rw [hk] at hc
        exact Bool.noConfusion hc
    · rw [if_neg hk]
      have hpk : p k = false := by
        cases hpk2 : p k with
        | false => rfl
        | true => exact absurd hpk2 hk
      rw [ih (k + 1)]
      constructor
      · intro h i h1 h2
        rcases Nat.eq_or_lt_of_le h1 with heq | hlt
        · rw [← heq]
          exact hpk
        · exact h i hlt (by omega)
      · intro h i h1 h2
        exact h i (by omega) (by omega)

theorem scanFirst_of_firstIdxWith {p : Nat → Bool} {l : List Nat} {j : Nat}
    (h : firstIdxWith p l.length j) : scanFirst p l 0 = some j :=
  (scanFirst_eq_some_iff p l 0 j).mpr
    ⟨Nat.zero_le _, by have h1 := h.1; omega, h.2.1, fun i _ h2 => h.2.2 i h2⟩

theorem list_find_first {α : Type} (p : α → Bool) :
    ∀ (l : List α) (i : Nat) (d : α), l[i]? = some d → p d = true →
      (∀ k d', k < i → l[k]? = some d' → p d' = false) → l.find? p = some d := by
  intro l
  induction l with
  | nil =>
    intro i d h _ _
    simp at h
  | cons a t ih =>
    intro i d hget hp hmin
    cases i with
    | zero =>
      rw [List.getElem?_cons_zero] at hget
      obtain rfl : a = d := Option.some.inj hget
      exact List.find?_cons_of_pos _ hp
    | succ i =>
      have hpa : p a = false := hmin 0 a (Nat.succ_pos i) List.getElem?_cons_zero
      rw [List.find?_cons_of_neg _ (by simp [hpa])]
      rw [List.getElem?_cons_succ] at hget
      refine ih i d hget hp ?_
      intro k d' hk hg
      exact hmin (k + 1) d' (by omega) (by rw [List.getElem?_cons_succ]; exact hg)

theorem find_eq_of_mem_of_unique {α : Type} (p : α → Bool) (c : α) (hp : p c = true)
    (huniq : ∀ x, p x = true → x = c) :
    ∀ l : List α, c ∈ l → l.find? p = some c := by
  intro l
  induction l with
  | nil =>
    intro h
    cases h
  | cons a t ih =>
    intro hmem
    by_cases ha : p a = true
    · have hac : a = c := huniq a ha
      subst hac
      exact List.find?_cons_of_pos _ ha
    · rw [List.find?_cons_of_neg _ ha]
      apply ih
      rcases List.mem_cons.mp hmem with rfl | hm
      · exact absurd hp ha
      · exact hm

/-! Claim theorems. -/

/-- C1 (code bug): a device lacking every required feature flag but meeting
the version, queue-family and extension checks is still reported suitable,
because the source computes supportsRequiredFeatures at line 217 and the
return statement at line 219 does not use it. -/
theorem isDeviceSuitable_ignores_features :
    isDeviceSuitable featurelessDevice = true ∧
      supportsRequiredFeatures featurelessDevice = false :=
  ⟨by decide, by decide⟩

/-- C3 counterexample: with one supported format pair and an empty
present-mode list, negotiation succeeds (present-mode selection totalizes
to FIFO), refuting the claim that an empty present-mode list makes
negotiation fail. -/
theorem negotiate_empty_modes_counterexample :
    ¬ ((negotiateFormatsAndMode [preferredSurfaceFormat] [] = none) ↔
      ([preferredSurfaceFormat] = ([] : List SurfaceFormatKHR)
        ∨ ([] : List PresentModeKHR) = [])) := by
  decide

/-- C3 amended: negotiation fails exactly when the format list is empty,
where the source indexes element 0 of the empty vector (modelled as none);
an empty present-mode list never makes it fail. -/
theorem negotiate_fails_iff_no_formats (formats : List SurfaceFormatKHR)
    (modes : List PresentModeKHR) :
    negotiateFormatsAndMode formats modes = none ↔ formats = [] := by
  cases formats with
  | nil => simp [negotiateFormatsAndMode, chooseSwapSurfaceFormat]
  | cons f t =>
    rcases hf : (f :: t).find?
        (fun f => f.format == Format.eB8G8R8A8Srgb && f.colorSpace == ColorSpaceKHR.eSrgbNonlinear)
      with _ | g
    · simp [negotiateFormatsAndMode, chooseSwapSurfaceFormat, hf]
    · simp [negotiateFormatsAndMode, chooseSwapSurfaceFormat, hf]

/-- C4 counterexample: with the sentinel in the width only, so not in both
axes, the claim demands the reported current extent verbatim, but the code
takes the clamped-framebuffer path and returns a different extent. -/
theorem chooseSwapExtent_width_sentinel_counterexample :
    chooseSwapExtent widthSentinelCaps 50 2000 = { width := 100, height := 1000 } ∧
      widthSentinelCaps.currentExtent ≠ { width := 100, height := 1000 } :=
  ⟨by decide, by decide⟩

/-- C4 amended: when currentExtent.width is the sentinel (in particular
when both axes are), the extent is the framebuffer size clamped per axis
into the min and max image extents; when the width is not the sentinel the
current extent is returned verbatim. -/
theorem chooseSwapExtent_sentinel_spec (capabilities : SurfaceCapabilitiesKHR)
    (fbWidth fbHeight : Nat) :
    (capabilities.currentExtent.width = uint32Max ∧
        capabilities.currentExtent.height = uint32Max →
      chooseSwapExtent capabilities fbWidth fbHeight =
        { width := clampNat fbWidth capabilities.minImageExtent.width
            capabilities.maxImageExtent.width,
          height := clampNat fbHeight capabilities.minImageExtent.height
            capabilities.maxImageExtent.height })
    ∧ (capabilities.currentExtent.width ≠ uint32Max →
      chooseSwapExtent capabilities fbWidth fbHeight = capabilities.currentExtent) := by
  constructor
  · rintro ⟨hw, -⟩
    simp [chooseSwapExtent, hw]
  · intro hw
    simp [chooseSwapExtent, hw]

/-- Witness for C4 amended: sentinel current extent, minimum (100,100),
maximum (1000,1000) and framebuffer (50,2000) yield (100,1000). -/
theorem chooseSwapExtent_sentinel_spec_witness :
    chooseSwapExtent bothSentinelCaps 50 2000 = { width := 100, height := 1000 } := by
  rw [(chooseSwapExtent_sentinel_spec bothSentinelCaps 50 2000).1 (by decide)]
  decide

/-- C10: the extent chooser inspects only the width component: a
non-sentinel width returns the current extent verbatim even when the
height equals the sentinel, and a sentinel width takes the clamped
framebuffer path regardless of the height component. -/
theorem chooseSwapExtent_width_only (capabilities : SurfaceCapabilitiesKHR)
    (fbWidth fbHeight : Nat) :
    (capabilities.currentExtent.width ≠ uint32Max →
      chooseSwapExtent capabilities fbWidth fbHeight = capabilities.currentExtent)
    ∧ (capabilities.currentExtent.width = uint32Max →
      chooseSwapExtent capabilities fbWidth fbHeight =
        { width := clampNat fbWidth capabilities.minImageExtent.width
            capabilities.maxImageExtent.width,
          height := clampNat fbHeight capabilities.minImageExtent.height
            capabilities.maxImageExtent.height }) := by
  constructor
  · intro hw
    simp [chooseSwapExtent, hw]
  · intro hw
    simp [chooseSwapExtent, hw]

/-- Witness for C10: a current extent of (640, sentinel) is returned
verbatim because only the width is inspected. -/
theorem chooseSwapExtent_width_only_witness :
    chooseSwapExtent heightSentinelCaps 50 2000 = heightSentinelCaps.currentExtent :=
  (chooseSwapExtent_width_only heightSentinelCaps 50 2000).1 (by decide)

/-- C5 counterexample: capabilities with minImageCount 2 and maxImageCount
1, violating the Vulkan guarantee that a nonzero maxImageCount is at least
minImageCount, produce image count 1, below minImageCount, refuting the
unconditional never-below-minImageCount part of the claim. -/
theorem swapChainImageCount_below_min_counterexample :
    swapChainImageCount tightCaps = 1 ∧
      ¬ (tightCaps.minImageCount ≤ swapChainImageCount tightCaps) :=
  ⟨by decide, by decide⟩

/-- C5 amended: the image count is max(3, minImageCount) clamped down to a
nonzero maxImageCount (zero meaning no upper bound), and under the Vulkan
guarantee that a nonzero maxImageCount is at least minImageCount the count
never drops below minImageCount nor exceeds a nonzero maxImageCount. -/
theorem swapChainImageCount_spec (capabilities : SurfaceCapabilitiesKHR)
    (h : capabilities.maxImageCount = 0 ∨
      capabilities.minImageCount ≤ capabilities.maxImageCount) :
    swapChainImageCount capabilities =
      (if capabilities.maxImageCount = 0 then max 3 capabilities.minImageCount
       else min (max 3 capabilities.minImageCount) capabilities.maxImageCount)
    ∧ capabilities.minImageCount ≤ swapChainImageCount capabilities
    ∧ (capabilities.maxImageCount ≠ 0 →
      swapChainImageCount capabilities ≤ capabilities.maxImageCount) := by
  refine ⟨?_, ?_, ?_⟩ <;> simp only [swapChainImageCount] <;> split_ifs <;> omega

/-- Witness for C5 amended: minImageCount 2 with maxImageCount 2 yields 2,
and minImageCount 1 with no upper bound yields 3. -/
theorem swapChainImageCount_spec_witness :
    swapChainImageCount caps22 = 2 ∧ swapChainImageCount caps10 = 3 := by
  constructor
  · rw [(swapChainImageCount_spec caps22 (by decide)).1]
    decide
  · rw [(swapChainImageCount_spec caps10 (by decide)).1]
    decide

/-- C6: on a non-empty format list the chooser returns the preferred sRGB
pair whenever it occurs anywhere in the list, and the first listed pair
otherwise. -/
theorem chooseSwapSurfaceFormat_spec (formats : List SurfaceFormatKHR) (h : formats ≠ []) :
    (preferredSurfaceFormat ∈ formats →
      chooseSwapSurfaceFormat formats = some preferredSurfaceFormat)
    ∧ (preferredSurfaceFormat ∉ formats →
      ∃ f0, formats[0]? = some f0 ∧ chooseSwapSurfaceFormat formats = some f0) := by
  have hpred : ∀ f : SurfaceFormatKHR,
      (f.format == Format.eB8G8R8A8Srgb && f.colorSpace == ColorSpaceKHR.eSrgbNonlinear) = true ↔
        f = preferredSurfaceFormat := by
    intro f
    cases f
    simp [preferredSurfaceFormat, Bool.and_eq_true, beq_iff_eq, SurfaceFormatKHR.mk.injEq]
  constructor
  · intro hmem
    have hfind := find_eq_of_mem_of_unique _ preferredSurfaceFormat
      ((hpred preferredSurfaceFormat).mpr rfl) (fun x hx => (hpred x).mp hx) formats hmem
    simp [chooseSwapSurfaceFormat, hfind]
  · intro hnmem
    have hfind : formats.find?
        (fun f => f.format == Format.eB8G8R8A8Srgb && f.colorSpace == ColorSpaceKHR.eSrgbNonlinear)
          = none := by
      apply List.find?_eq_none.mpr
      intro x hx hpx
      have hxc := (hpred x).mp hpx
      subst hxc
      exact hnmem hx
    cases formats with
    | nil => exact absurd rfl h
    | cons a t =>
      refine ⟨a, List.getElem?_cons_zero, ?_⟩
      simp [chooseSwapSurfaceFormat, hfind]

/-- Witness for C6: the preferred pair in second position is returned. -/
theorem chooseSwapSurfaceFormat_spec_witness :
    chooseSwapSurfaceFormat
      [{ format := Format.eUndefined, colorSpace := ColorSpaceKHR.eSrgbNonlinear },
        preferredSurfaceFormat] = some preferredSurfaceFormat :=
  (chooseSwapSurfaceFormat_spec _ (by decide)).1 (by decide)

/-- C7: present-mode selection returns mailbox when it occurs anywhere in
the list and the guaranteed FIFO fallback otherwise; it is a total
function and never fails. -/
theorem chooseSwapPresentMode_spec (modes : List PresentModeKHR) :
    chooseSwapPresentMode modes =
      if PresentModeKHR.eMailbox ∈ modes then PresentModeKHR.eMailbox
      else PresentModeKHR.eFifo := by
  rcases hf : modes.find? (fun m => m == PresentModeKHR.eMailbox) with _ | m
  · have hnmem : PresentModeKHR.eMailbox ∉ modes := by
      intro hmem
      have hc := List.find?_eq_none.mp hf _ hmem
      simp at hc
    simp [chooseSwapPresentMode, hf, hnmem]
  · have hm : m = PresentModeKHR.eMailbox := by
      have hc := List.find?_some hf
      simpa using hc
    subst hm
    have hmem : PresentModeKHR.eMailbox ∈ modes := List.mem_of_find?_eq_some hf
    simp [chooseSwapPresentMode, hf, hmem]

/-- C2: queue resolution follows the three-tier fallback exactly: a first
graphics-capable family that can present serves both roles; otherwise the
first family over all families that is simultaneously graphics-capable and
present-capable serves both roles; otherwise the graphics index stays the
first graphics-capable family and the present index becomes the first
present-capable family. -/
theorem resolveQueues_three_tier (families : List Nat) (ps : Nat → Bool) :
    (∀ j, firstIdxWith (graphicsAt families) families.length j → ps j = true →
      resolveQueues families ps = .ok { graphicsIndex := j, presentIndex := j })
    ∧ (∀ j j', firstIdxWith (graphicsAt families) families.length j → ps j = false →
      firstIdxWith (fun i => graphicsAt families i && ps i) families.length j' →
      resolveQueues families ps = .ok { graphicsIndex := j', presentIndex := j' })
    ∧ (∀ j j', firstIdxWith (graphicsAt families) families.length j → ps j = false →
      (∀ i, i < families.length → (graphicsAt families i && ps i) = false) →
      firstIdxWith ps families.length j' →
      resolveQueues families ps = .ok { graphicsIndex := j, presentIndex := j' }) := by
  refine ⟨?_, ?_, ?_⟩
  · intro j hf hps
    have hscan := scanFirst_of_firstIdxWith hf
    have hjn : ¬ (j = families.length) := by
      have h1 := hf.1
      omega
    simp [resolveQueues, hscan, hps, hjn]
  · intro j j' hf hps hf'
    have hscan := scanFirst_of_firstIdxWith hf
    have hscan' := scanFirst_of_firstIdxWith hf'
    have hjn' : ¬ (j' = families.length) := by
      have h1 := hf'.1
      omega
    simp [resolveQueues, hscan, hscan', hps, hjn']
  · intro j j' hf hps hall hf'
    have hscan := scanFirst_of_firstIdxWith hf
    have hnone : scanFirst (fun i => graphicsAt families i && ps i) families 0 = none :=
      (scanFirst_eq_none_iff _ families 0).mpr (fun i _ h2 => hall i (by omega))
    have hscan' := scanFirst_of_firstIdxWith hf'
    have hjn : ¬ (j = families.length) := by
      have h1 := hf.1
      omega
    have hjn' : ¬ (j' = families.length) := by
      have h1 := hf'.1
      omega
    simp [resolveQueues, hscan, hnone, hscan', hps, hjn, hjn']

/-- Witness for C2: the synthetic 3-family device with family 0
graphics-only, family 1 compute-only, family 2 present-only resolves to
graphics index 0 and present index 2 through the third tier. -/
theorem resolveQueues_three_tier_witness :
    resolveQueues [1, 2, 4] (fun i => i == 2) =
      .ok { graphicsIndex := 0, presentIndex := 2 } :=
  (resolveQueues_three_tier [1, 2, 4] (fun i => i == 2)).2.2 0 2
    ⟨by decide, by decide, fun i h => absurd h (Nat.not_lt_zero i)⟩ (by decide)
    (fun i h => by
      have h3 : i < 3 := by simpa using h
      interval_cases i <;> decide)
    ⟨by decide, by decide, fun i h => by interval_cases i <;> decide⟩

/-- C9: queue resolution fails with NoQueueFamilyAvailable exactly when the
chosen device has no graphics-capable family or no present-capable family,
and on success both returned indices are valid family indices of the
chosen device. -/
theorem resolveQueues_error_valid (families : List Nat) (ps : Nat → Bool) :
    (resolveQueues families ps = .error .NoQueueFamilyAvailable ↔
      (∀ i, i < families.length → graphicsAt families i = false)
        ∨ (∀ i, i < families.length → ps i = false))
    ∧ (∀ r, resolveQueues families ps = .ok r →
      r.graphicsIndex < families.length ∧ r.presentIndex < families.length) := by
  rcases hg : scanFirst (graphicsAt families) families 0 with _ | j
  · have hnog : ∀ i, i < families.length → graphicsAt families i = false := by
      intro i hi
      exact (scanFirst_eq_none_iff _ families 0).mp hg i (Nat.zero_le _) (by omega)
    have hshared : scanFirst (fun i => graphicsAt families i && ps i) families 0 = none := by
      refine (scanFirst_eq_none_iff _ families 0).mpr ?_
      intro i h1 h2
      rw [hnog i (by omega)]
      rfl
    rcases hp : scanFirst ps families 0 with _ | t
    · have hres : resolveQueues families ps = .error .NoQueueFamilyAvailable := by
        simp [resolveQueues, hg, hshared, hp, ite_self]
      constructor
      · rw [hres]
        exact iff_of_true rfl (Or.inl hnog)
      · intro r hr
        rw [hres] at hr
        exact Except.noConfusion hr
    · have hres : resolveQueues families ps = .error .NoQueueFamilyAvailable := by
        simp [resolveQueues, hg, hshared, hp, ite_self]
      constructor
      · rw [hres]
        exact iff_of_true rfl (Or.inl hnog)
      · intro r hr
        rw [hres] at hr
        exact Except.noConfusion hr
  · have hj := (scanFirst_eq_some_iff _ families 0 j).mp hg
    have hjlt : j < families.length := by
      have h1 := hj.2.1
      omega
    have hgj : graphicsAt families j = true := hj.2.2.1
    have hjn : ¬ (j = families.length) := by omega
    cases hps : ps j with
    | true =>
      have hres : resolveQueues families ps =
          .ok { graphicsIndex := j, presentIndex := j } := by
        simp [resolveQueues, hg, hps, hjn]
      constructor
      · rw [hres]
        refine iff_of_false (fun h => Except.noConfusion h) ?_
        rintro (h | h)
        · have hc := h j hjlt
          rw [hgj] at hc
          exact Bool.noConfusion hc
        · have hc := h j hjlt
          rw [hps] at hc
          exact Bool.noConfusion hc
      · intro r hr
        rw [hres] at hr
        obtain rfl : ({ graphicsIndex := j, presentIndex := j } : ResolvedQueues) = r :=
          Except.ok.inj hr
        exact ⟨hjlt, hjlt⟩
    | false =>
      rcases hsh : scanFirst (fun i => graphicsAt families i && ps i) families 0 with _ | s
      · rcases hp : scanFirst ps families 0 with _ | t
        · have hnop : ∀ i, i < families.length → ps i = false := fun i hi =>
            (scanFirst_eq_none_iff ps families 0).mp hp i (Nat.zero_le _) (by omega)
          have hres : resolveQueues families ps = .error .NoQueueFamilyAvailable := by
            simp [resolveQueues, hg, hps, hsh, hp]
          constructor
          · rw [hres]
            exact iff_of_true rfl (Or.inr hnop)
          · intro r hr
            rw [hres] at hr
            exact Except.noConfusion hr
        · have ht := (scanFirst_eq_some_iff ps families 0 t).mp hp
          have htlt : t < families.length := by
            have h1 := ht.2.1
            omega
          have hpt : ps t = true := ht.2.2.1
          have htn : ¬ (t = families.length) := by omega
          have hres : resolveQueues families ps =
              .ok { graphicsIndex := j, presentIndex := t } := by
            simp [resolveQueues, hg, hps, hsh, hp, hjn, htn]
          constructor
          · rw [hres]
            refine iff_of_false (fun h => Except.noConfusion h) ?_
            rintro (h | h)
            · have hc := h j hjlt
              rw [hgj] at hc
              exact Bool.noConfusion hc
            · have hc := h t htlt
              rw [hpt] at hc
              exact Bool.noConfusion hc
          · intro r hr
            rw [hres] at hr
            obtain rfl : ({ graphicsIndex := j, presentIndex := t } : ResolvedQueues) = r :=
              Except.ok.inj hr
            exact ⟨hjlt, htlt⟩
      · have hs := (scanFirst_eq_some_iff _ families 0 s).mp hsh
        have hslt : s < families.length := by
          have h1 := hs.2.1
          omega
        have hss : (graphicsAt families s && ps s) = true := hs.2.2.1
        have hgs : graphicsAt families s = true := (Bool.and_eq_true_iff.mp hss).1
        have hpss : ps s = true := (Bool.and_eq_true_iff.mp hss).2
        have hsn : ¬ (s = families.length) := by omega
        have hres : resolveQueues families ps =
            .ok { graphicsIndex := s, presentIndex := s } := by
          simp [resolveQueues, hg, hps, hsh, hsn]
        constructor
        · rw [hres]
          refine iff_of_false (fun h => Except.noConfusion h) ?_
          rintro (h | h)
          · have hc := h s hslt
            rw [hgs] at hc
            exact Bool.noConfusion hc
          · have hc := h s hslt
            rw [hpss] at hc
            exact Bool.noConfusion hc
        · intro r hr
          rw [hres] at hr
          obtain rfl : ({ graphicsIndex := s, presentIndex := s } : ResolvedQueues) = r :=
            Except.ok.inj hr
          exact ⟨hslt, hslt⟩

/-- Witness for C9: on a single graphics-capable, present-capable family
the resolver succeeds and both returned indices are valid. -/
theorem resolveQueues_error_valid_witness : 0 < 1 ∧ 0 < 1 :=
  (resolveQueues_error_valid [1] (fun _ => true)).2
    { graphicsIndex := 0, presentIndex := 0 } rfl

/-- C8: device selection fails with NoDevicesFound on an empty catalog,
commits to the first suitable device in enumeration order, and fails with
NoSuitableDevice exactly when the catalog is non-empty and no enumerated
device is suitable. -/
theorem pickPhysicalDevice_spec (devices : List PhysicalDevice) :
    (devices = [] → pickPhysicalDevice devices = .error .NoDevicesFound)
    ∧ (∀ (i : Nat) (d : PhysicalDevice), devices[i]? = some d → isDeviceSuitable d = true →
      (∀ (k : Nat) (d' : PhysicalDevice), k < i → devices[k]? = some d' →
        isDeviceSuitable d' = false) →
      pickPhysicalDevice devices = .ok d)
    ∧ (pickPhysicalDevice devices = .error .NoSuitableDevice ↔
      devices ≠ [] ∧ ∀ d, d ∈ devices → isDeviceSuitable d = false) := by
  refine ⟨?_, ?_, ?_⟩
  · rintro rfl
    rfl
  · intro i d hget hp hmin
    have hfind := list_find_first isDeviceSuitable devices i d hget hp hmin
    cases devices with
    | nil => simp at hget
    | cons a t => simp [pickPhysicalDevice, hfind]
  · cases devices with
    | nil =>
      refine iff_of_false ?_ ?_
      · intro h
        exact PickError.noConfusion (Except.error.inj h)
      · rintro ⟨h, -⟩
        exact h rfl
    | cons a t =>
      rcases hf : (a :: t).find? isDeviceSuitable with _ | dev
      · have hall : ∀ d, d ∈ a :: t → isDeviceSuitable d = false := by
          intro d hd
          have hnp := List.find?_eq_none.mp hf d hd
          cases hb : isDeviceSuitable d with
          | false => rfl
          | true => exact absurd hb hnp
        refine iff_of_true ?_ ⟨List.cons_ne_nil a t, hall⟩
        simp [pickPhysicalDevice, hf]
      · refine iff_of_false ?_ ?_
        · intro h
          rw [show pickPhysicalDevice (a :: t) = .ok dev by simp [pickPhysicalDevice, hf]] at h
          exact Except.noConfusion h
        · rintro ⟨-, hall⟩
          have hdev := List.find?_some hf
          have hc := hall dev (List.mem_of_find?_eq_some hf)
          rw [hdev] at hc
          exact Bool.noConfusion hc

/-- Witness for C8: with an unsuitable device first, the first suitable
device in order is committed to even when a later one is also suitable. -/
theorem pickPhysicalDevice_spec_witness :
    pickPhysicalDevice [unsuitableDevice, suitableDeviceA, suitableDeviceB] =
      .ok suitableDeviceA := by
  refine (pickPhysicalDevice_spec [unsuitableDevice, suitableDeviceA, suitableDeviceB]).2.1 1
    suitableDeviceA rfl (by decide) ?_
  intro k d' hk hget
  interval_cases k
  obtain rfl : unsuitableDevice = d' := Option.some.inj hget
  decide

end HelloTriangle
